import Mathlib

/-!
Verification development for the billipocket invoicing application.

The embedding follows `app/models.py`, `app/services/status_transitions.py`,
`app/forms.py` and `app/routes/dashboard.py`:

- monetary columns (`Numeric`) are modelled as rationals;
- SQL `Date` / `DateTime` values are modelled as integers (ordinal days /
  timestamps), and every function that reads `date.today()` or
  `datetime.utcnow()` in Python receives the value explicitly as a `today`
  or `now` parameter;
- statuses are the raw Estonian strings used by the code
  (`mustand`, `saadetud`, `makstud`, `tähtaeg ületatud`);
- the SQLAlchemy relationship `Invoice.vat_rate_obj` is modelled as a
  lookup of `vat_rate_id` in an explicit store of `VatRate` rows.
-/

namespace Billipocket

/-- Embeds the `VatRate` model row: primary key, unique name, percentage
rate and active flag. -/
structure VatRate where
  id : Nat
  name : String
  rate : ℚ
  is_active : Bool
deriving DecidableEq, Repr

/-- Embeds the `InvoiceLine` model row (the foreign key is implicit: lines
live inside their invoice's `lines` list). -/
structure InvoiceLine where
  description : String
  qty : ℚ
  unit_price : ℚ
  line_total : ℚ
deriving DecidableEq, Repr

/-- Embeds the `Invoice` model row together with its owned lines. -/
structure Invoice where
  number : String
  client_id : Nat
  date : Int
  due_date : Int
  subtotal : ℚ
  vat_rate_id : Option Nat
  vat_rate : ℚ
  total : ℚ
  status : String
  created_at : Int
  updated_at : Int
  lines : List InvoiceLine
deriving DecidableEq, Repr

namespace Invoice

/-- The SQLAlchemy relationship `vat_rate_obj`: the `VatRate` row whose
primary key equals the invoice's `vat_rate_id`, if any. -/
def vat_rate_obj (store : List VatRate) (inv : Invoice) : Option VatRate :=
  inv.vat_rate_id.bind (fun i => store.find? (fun r => r.id == i))

/-- Embeds `Invoice.get_effective_vat_rate`: the rate of the live
`vat_rate_obj` reference when it resolves, otherwise the denormalized
`vat_rate` column. -/
def get_effective_vat_rate (store : List VatRate) (inv : Invoice) : ℚ :=
  match vat_rate_obj store inv with
  | some r => r.rate
  | none => inv.vat_rate

/-- Embeds the `Invoice.vat_amount` property:
`subtotal * (effective_rate / 100)`. -/
def vat_amount (store : List VatRate) (inv : Invoice) : ℚ :=
  inv.subtotal * (get_effective_vat_rate store inv / 100)

/-- Embeds the `Invoice.is_overdue` property:
`due_date < date.today() and status in ['saadetud']`. -/
def is_overdue (today : Int) (inv : Invoice) : Bool :=
  decide (inv.due_date < today) && ["saadetud"].contains inv.status

/-- Embeds `Invoice.calculate_totals`: `subtotal` becomes the sum of the
stored `line_total` of each line, then `total` becomes
`subtotal + vat_amount` (computed from the updated subtotal). -/
def calculate_totals (store : List VatRate) (inv : Invoice) : Invoice :=
  let inv' : Invoice := { inv with subtotal := (inv.lines.map InvoiceLine.line_total).sum }
  { inv' with total := inv'.subtotal + vat_amount store inv' }

/-- The closed status set of the `check_status_valid` constraint and of
`Invoice.can_change_status_to`. -/
def validStatuses : List String :=
  ["mustand", "saadetud", "makstud", "tähtaeg ületatud"]

/-- Embeds `Invoice.can_change_status_to`: returns the pair
`(can_change, error_message)`, with the three guards in source order
(paid cannot revert, the requested status must be valid, overdue cannot be
re-marked sent while `is_overdue`). -/
def can_change_status_to (today : Int) (inv : Invoice) (new_status : String) :
    Bool × Option String :=
  if inv.status = "makstud" ∧ new_status ∈ ["mustand", "saadetud", "tähtaeg ületatud"] then
    (false, some "Makstud arveid ei saa tagasi maksmata staatusesse muuta.")
  else if new_status ∉ validStatuses then
    (false, some ("Vigane staatus: " ++ new_status))
  else if inv.status = "tähtaeg ületatud" ∧ new_status = "saadetud" ∧ is_overdue today inv = true then
    (false, some "Tähtaja ületanud arvet ei saa saadetud staatusesse muuta, kui tähtaeg on endiselt ületatud.")
  else
    (true, none)

/-- Embeds `Invoice.set_status`: on a permitted change the status is set and
`updated_at` refreshed; otherwise the `ValueError` is modelled as `.error`
carrying the message. -/
def set_status (today now : Int) (inv : Invoice) (new_status : String) :
    Except String Invoice :=
  let checked := can_change_status_to today inv new_status
  if checked.1 then
    .ok { inv with status := new_status, updated_at := now }
  else
    .error (checked.2.getD "")

/-- One invoice's step of `Invoice.update_overdue_invoices`: the SQL filter
`due_date < today AND status = 'saadetud'` selects the invoice, and the loop
body sets its status to overdue and refreshes `updated_at`. -/
def update_overdue_step (today now : Int) (inv : Invoice) : Invoice :=
  if inv.due_date < today ∧ inv.status = "saadetud" then
    { inv with status := "tähtaeg ületatud", updated_at := now }
  else
    inv

/-- Embeds the classmethod `Invoice.update_overdue_invoices` over an explicit
table of invoices: every filtered invoice is promoted, and the count of
promoted invoices is returned. -/
def update_overdue_invoices (today now : Int) (invs : List Invoice) :
    List Invoice × Nat :=
  (invs.map (update_overdue_step today now),
   invs.countP (fun inv => decide (inv.due_date < today ∧ inv.status = "saadetud")))

end Invoice

namespace InvoiceStatusTransition

/-- Service-layer status constant `DRAFT`. -/
def DRAFT : String := "mustand"

/-- Service-layer status constant `SENT`. -/
def SENT : String := "saadetud"

/-- Service-layer status constant `PAID`. -/
def PAID : String := "makstud"

/-- Service-layer status constant `OVERDUE`. -/
def OVERDUE : String := "tähtaeg ületatud"

/-- Service-layer list `VALID_STATUSES`. -/
def VALID_STATUSES : List String := [DRAFT, SENT, PAID, OVERDUE]

/-- Service-layer success messages `STATUS_MESSAGES`. -/
def STATUS_MESSAGES : List (String × String) :=
  [(DRAFT, "Arve on muudetud mustandiks."),
   (SENT, "Arve on märgitud saadetud."),
   (PAID, "Arve on märgitud makstud."),
   (OVERDUE, "Arve on märgitud tähtaja ületanud.")]

/-- Embeds `InvoiceStatusTransition.can_transition_to`: the requested status
must be valid, a same-status request is allowed immediately, and a paid
invoice cannot revert to an unpaid status. -/
def can_transition_to (current_status new_status : String) : Bool × Option String :=
  if new_status ∉ VALID_STATUSES then
    (false, some ("Vigane staatus: " ++ new_status))
  else if current_status = new_status then
    (true, none)
  else if current_status = PAID ∧ new_status ∈ [DRAFT, SENT, OVERDUE] then
    (false, some "Makstud arveid ei saa tagasi maksmata staatusesse muuta.")
  else
    (true, none)

/-- Embeds `InvoiceStatusTransition.can_transition_overdue_to_sent`: rejects
exactly when the invoice is overdue, sent is requested, and `is_overdue`
holds. -/
def can_transition_overdue_to_sent (today : Int) (inv : Invoice) (new_status : String) :
    Bool × Option String :=
  if inv.status = OVERDUE ∧ new_status = SENT ∧ Invoice.is_overdue today inv = true then
    (false, some "Tähtaja ületanud arvet ei saa saadetud staatusesse muuta, kui tähtaeg on endiselt ületatud.")
  else
    (true, none)

/-- Embeds `InvoiceStatusTransition.transition_invoice_status`: runs
`can_transition_to`, then `can_transition_overdue_to_sent`, then
`Invoice.set_status` (whose `ValueError` becomes a failed result). Returns
`(success, message, resulting invoice)`; on failure the invoice is
unchanged. -/
def transition_invoice_status (today now : Int) (inv : Invoice) (new_status : String) :
    Bool × String × Invoice :=
  let checked := can_transition_to inv.status new_status
  if checked.1 = false then
    (false, checked.2.getD "", inv)
  else
    let checkedOverdue := can_transition_overdue_to_sent today inv new_status
    if checkedOverdue.1 = false then
      (false, checkedOverdue.2.getD "", inv)
    else
      match Invoice.set_status today now inv new_status with
      | .ok inv' =>
          (true, ((STATUS_MESSAGES.lookup new_status).getD "Staatust on muudetud."), inv')
      | .error e => (false, e, inv)

end InvoiceStatusTransition

namespace Forms

/-- A row of the invoice table as seen by the uniqueness validator:
primary key and invoice number. -/
structure InvoiceRow where
  id : Nat
  number : String
deriving DecidableEq, Repr

/-- The regular expression body of `validate_invoice_number_format`,
`^\d{4}-\d{4}$`, over the string's characters (digits taken as ASCII
`0`-`9`). -/
def matchesNumberPattern (s : String) : Bool :=
  match s.data with
  | [c0, c1, c2, c3, c4, c5, c6, c7, c8] =>
      c0.isDigit && c1.isDigit && c2.isDigit && c3.isDigit && (c4 == '-') &&
      c5.isDigit && c6.isDigit && c7.isDigit && c8.isDigit
  | _ => false

/-- Embeds `validate_invoice_number_format`: empty data passes (the
validator returns early on falsy data), otherwise the data must match
`^\d{4}-\d{4}$`. -/
def validate_invoice_number_format (data : String) : Bool :=
  if data = "" then true else matchesNumberPattern data

/-- Embeds `validate_unique_invoice_number`: the first existing invoice with
the same number, if any, must be the invoice being edited (`_invoice_id`,
`none` on creation; the Python truthiness test on `invoice_id` also rejects
the id `0`). -/
def validate_unique_invoice_number (existing : List InvoiceRow) (invoice_id : Option Nat)
    (data : String) : Bool :=
  match existing.find? (fun row => row.number == data) with
  | none => true
  | some row =>
      match invoice_id with
      | some iid => iid != 0 && row.id == iid
      | none => false

/-- The WTForms `DataRequired` validator on a string field: fails when the
data is empty or consists only of whitespace (Python
`not field.data or not field.data.strip()`), stopping the chain. -/
def data_required (data : String) : Bool :=
  data.data.any (fun c => !c.isWhitespace)

/-- The full validator chain of the `InvoiceForm.number` field:
`DataRequired`, then `validate_invoice_number_format`, then
`validate_unique_invoice_number`. -/
def invoice_number_validates (existing : List InvoiceRow) (invoice_id : Option Nat)
    (data : String) : Bool :=
  data_required data && validate_invoice_number_format data &&
    validate_unique_invoice_number existing invoice_id data

end Forms

namespace Dashboard

/-- Outcome of the `delete_vat_rate` route: whether the deletion was
performed, the resulting tables, and the flashed message. -/
structure DeleteVatRateResult where
  ok : Bool
  rates : List VatRate
  invoices : List Invoice
  flash : String
deriving DecidableEq, Repr

/-- Embeds the route `delete_vat_rate`: `get_or_404` the rate, refuse while
any invoice references it (`Invoice.query.filter_by(vat_rate_id=...)` count
positive) leaving both tables unchanged, otherwise delete the rate. -/
def delete_vat_rate (rates : List VatRate) (invoices : List Invoice)
    (vat_rate_id : Nat) : DeleteVatRateResult :=
  match rates.find? (fun r => r.id == vat_rate_id) with
  | none => ⟨false, rates, invoices, "404 Not Found"⟩
  | some vr =>
      let invoice_count := invoices.countP (fun inv => inv.vat_rate_id == some vat_rate_id)
      if 0 < invoice_count then
        ⟨false, rates, invoices,
         "KM määra \"" ++ vr.name ++ "\" ei saa kustutada, kuna see on kasutusel " ++
           toString invoice_count ++ " arvel."⟩
      else
        ⟨true, rates.eraseP (fun r => r.id == vat_rate_id), invoices,
         "KM määr \"" ++ vr.name ++ "\" on edukalt kustutatud."⟩

end Dashboard

/-- C9: `is_overdue` holds exactly when the status is `saadetud` and the due
date is strictly before the current date; in every other status — including
`tähtaeg ületatud` — it is `false` whatever the due date. -/
theorem c9_is_overdue_characterization (today : Int) (inv : Invoice) :
    Invoice.is_overdue today inv = true ↔
      inv.status = "saadetud" ∧ inv.due_date < today := by
  simp [Invoice.is_overdue, and_comm]

/-- C1: code bug witness. For an invoice in status `tähtaeg ületatud` whose
due date (day 9) is strictly before the current date (day 10), the requested
transition to `saadetud` is allowed and performed by the code, because the
guard in `can_change_status_to` tests `is_overdue`, which is `false` for any
status other than `saadetud`; the spec requires this transition to fail. -/
theorem c1_overdue_to_sent_allowed_despite_past_due :
    (Invoice.is_overdue 10
        { number := "2025-0001", client_id := 1, date := 0, due_date := 9, subtotal := 0,
          vat_rate_id := none, vat_rate := 24, total := 0, status := "tähtaeg ületatud",
          created_at := 0, updated_at := 0, lines := [] } = false) ∧
    (Invoice.can_change_status_to 10
        { number := "2025-0001", client_id := 1, date := 0, due_date := 9, subtotal := 0,
          vat_rate_id := none, vat_rate := 24, total := 0, status := "tähtaeg ületatud",
          created_at := 0, updated_at := 0, lines := [] } "saadetud" = (true, none)) ∧
    (Invoice.set_status 10 11
        { number := "2025-0001", client_id := 1, date := 0, due_date := 9, subtotal := 0,
          vat_rate_id := none, vat_rate := 24, total := 0, status := "tähtaeg ületatud",
          created_at := 0, updated_at := 0, lines := [] } "saadetud" =
      .ok { number := "2025-0001", client_id := 1, date := 0, due_date := 9, subtotal := 0,
            vat_rate_id := none, vat_rate := 24, total := 0, status := "saadetud",
            created_at := 0, updated_at := 11, lines := [] }) := by
  exact ⟨by decide, by decide, rfl⟩

/-- C6: a successful `set_status` changes only the status field and the
update timestamp; the number, client, dates, monetary fields, VAT fields and
lines are untouched, so totals are never recomputed by a status change. -/
theorem c6_set_status_frame (today now : Int) (inv : Invoice) (new_status : String)
    (inv' : Invoice) (h : Invoice.set_status today now inv new_status = .ok inv') :
    inv'.status = new_status ∧ inv'.updated_at = now ∧
    inv'.number = inv.number ∧ inv'.client_id = inv.client_id ∧
    inv'.date = inv.date ∧ inv'.due_date = inv.due_date ∧
    inv'.subtotal = inv.subtotal ∧ inv'.vat_rate_id = inv.vat_rate_id ∧
    inv'.vat_rate = inv.vat_rate ∧ inv'.total = inv.total ∧
    inv'.created_at = inv.created_at ∧ inv'.lines = inv.lines := by
  unfold Invoice.set_status at h
  by_cases hc : (Invoice.can_change_status_to today inv new_status).1
  · simp only [hc, if_true] at h
    cases h
    simp
  · simp [hc] at h

/-- C6 witness: a concrete draft invoice moved to `saadetud` keeps every
field except the status and the update timestamp. -/
theorem c6_set_status_frame_witness :
    let inv : Invoice :=
      { number := "2025-0001", client_id := 1, date := 0, due_date := 14, subtotal := 100,
        vat_rate_id := none, vat_rate := 24, total := 124, status := "mustand",
        created_at := 0, updated_at := 0, lines := [] }
    let inv' : Invoice := { inv with status := "saadetud", updated_at := 5 }
    inv'.status = "saadetud" ∧ inv'.updated_at = 5 ∧
    inv'.number = inv.number ∧ inv'.client_id = inv.client_id ∧
    inv'.date = inv.date ∧ inv'.due_date = inv.due_date ∧
    inv'.subtotal = inv.subtotal ∧ inv'.vat_rate_id = inv.vat_rate_id ∧
    inv'.vat_rate = inv.vat_rate ∧ inv'.total = inv.total ∧
    inv'.created_at = inv.created_at ∧ inv'.lines = inv.lines :=
  c6_set_status_frame 3 5
    { number := "2025-0001", client_id := 1, date := 0, due_date := 14, subtotal := 100,
      vat_rate_id := none, vat_rate := 24, total := 124, status := "mustand",
      created_at := 0, updated_at := 0, lines := [] }
    "saadetud"
    { number := "2025-0001", client_id := 1, date := 0, due_date := 14, subtotal := 100,
      vat_rate_id := none, vat_rate := 24, total := 124, status := "saadetud",
      created_at := 0, updated_at := 5, lines := [] }
    rfl

/-- C2: from status `makstud`, transitions to `mustand`, `saadetud` and
`tähtaeg ületatud` fail with the paid-invoices error, the self-transition
`makstud → makstud` succeeds keeping the status (only the update timestamp
is refreshed), and no request other than `makstud` can succeed. -/
theorem c2_paid_is_terminal (today now : Int) (inv : Invoice)
    (h : inv.status = "makstud") :
    Invoice.set_status today now inv "mustand" =
      .error "Makstud arveid ei saa tagasi maksmata staatusesse muuta." ∧
    Invoice.set_status today now inv "saadetud" =
      .error "Makstud arveid ei saa tagasi maksmata staatusesse muuta." ∧
    Invoice.set_status today now inv "tähtaeg ületatud" =
      .error "Makstud arveid ei saa tagasi maksmata staatusesse muuta." ∧
    Invoice.set_status today now inv "makstud" =
      .ok { inv with status := "makstud", updated_at := now } ∧
    (∀ new_status, new_status ≠ "makstud" →
      ∀ inv', Invoice.set_status today now inv new_status ≠ .ok inv') := by
  refine ⟨?_, ?_, ?_, ?_, ?_⟩
  · simp [Invoice.set_status, Invoice.can_change_status_to, h]
  · simp [Invoice.set_status, Invoice.can_change_status_to, h]
  · simp [Invoice.set_status, Invoice.can_change_status_to, h]
  · simp [Invoice.set_status, Invoice.can_change_status_to, Invoice.validStatuses, h,
      Invoice.is_overdue]
  · intro new_status hne inv'
    by_cases hv : new_status ∈ Invoice.validStatuses
    · simp only [Invoice.validStatuses, List.mem_cons, List.mem_singleton,
        List.not_mem_nil, or_false] at hv
      rcases hv with rfl | rfl | rfl | rfl
      · simp [Invoice.set_status, Invoice.can_change_status_to, h]
      · simp [Invoice.set_status, Invoice.can_change_status_to, h]
      · exact absurd rfl hne
      · simp [Invoice.set_status, Invoice.can_change_status_to, h]
    · have hthree : new_status ∉ (["mustand", "saadetud", "tähtaeg ületatud"] : List String) := by
        intro hmem
        apply hv
        simp only [Invoice.validStatuses, List.mem_cons, List.mem_singleton] at hmem ⊢
        tauto
      simp [Invoice.set_status, Invoice.can_change_status_to, hv, hthree]

/-- C2 witness: for a concrete paid invoice, the three reverting transitions
fail, the self-loop succeeds, and no non-`makstud` request succeeds. -/
theorem c2_paid_is_terminal_witness :
    let inv : Invoice :=
      { number := "2025-0001", client_id := 1, date := 0, due_date := 14, subtotal := 100,
        vat_rate_id := none, vat_rate := 24, total := 124, status := "makstud",
        created_at := 0, updated_at := 0, lines := [] }
    Invoice.set_status 3 5 inv "mustand" =
      .error "Makstud arveid ei saa tagasi maksmata staatusesse muuta." ∧
    Invoice.set_status 3 5 inv "saadetud" =
      .error "Makstud arveid ei saa tagasi maksmata staatusesse muuta." ∧
    Invoice.set_status 3 5 inv "tähtaeg ületatud" =
      .error "Makstud arveid ei saa tagasi maksmata staatusesse muuta." ∧
    Invoice.set_status 3 5 inv "makstud" =
      .ok { inv with status := "makstud", updated_at := 5 } ∧
    (∀ new_status, new_status ≠ "makstud" →
      ∀ inv', Invoice.set_status 3 5 inv new_status ≠ .ok inv') :=
  c2_paid_is_terminal 3 5
    { number := "2025-0001", client_id := 1, date := 0, due_date := 14, subtotal := 100,
      vat_rate_id := none, vat_rate := 24, total := 124, status := "makstud",
      created_at := 0, updated_at := 0, lines := [] }
    (by decide)

/-- C4: `calculate_totals` sets the subtotal to the sum of the stored
`line_total` of each line (never recomputed from qty × unit price), sets the
total to `subtotal + subtotal * effective_rate / 100`, is idempotent, and on
the lines `[(1, 300.00), (4, 75.00), (2.5, 100.00)]` with VAT rate 22%
yields subtotal 850.00, VAT amount 187.00 and total 1037.00. -/
theorem c4_calculate_totals (store : List VatRate) (inv : Invoice) :
    ((Invoice.calculate_totals store inv).subtotal =
        (inv.lines.map InvoiceLine.line_total).sum) ∧
    ((Invoice.calculate_totals store inv).total =
        (Invoice.calculate_totals store inv).subtotal +
          (Invoice.calculate_totals store inv).subtotal *
            Invoice.get_effective_vat_rate store inv / 100) ∧
    (Invoice.calculate_totals store (Invoice.calculate_totals store inv) =
        Invoice.calculate_totals store inv) ∧
    ((Invoice.calculate_totals []
        { number := "2025-0001", client_id := 1, date := 0, due_date := 14, subtotal := 0,
          vat_rate_id := none, vat_rate := 22, total := 0, status := "mustand",
          created_at := 0, updated_at := 0,
          lines :=
            [{ description := "Teenus 1", qty := 1, unit_price := 300, line_total := 300 },
             { description := "Teenus 2", qty := 4, unit_price := 75, line_total := 300 },
             { description := "Teenus 3", qty := 5/2, unit_price := 100, line_total := 250 }] }).subtotal
        = 850 ∧
     Invoice.vat_amount []
        (Invoice.calculate_totals []
          { number := "2025-0001", client_id := 1, date := 0, due_date := 14, subtotal := 0,
            vat_rate_id := none, vat_rate := 22, total := 0, status := "mustand",
            created_at := 0, updated_at := 0,
            lines :=
              [{ description := "Teenus 1", qty := 1, unit_price := 300, line_total := 300 },
               { description := "Teenus 2", qty := 4, unit_price := 75, line_total := 300 },
               { description := "Teenus 3", qty := 5/2, unit_price := 100, line_total := 250 }] })
        = 187 ∧
     (Invoice.calculate_totals []
        { number := "2025-0001", client_id := 1, date := 0, due_date := 14, subtotal := 0,
          vat_rate_id := none, vat_rate := 22, total := 0, status := "mustand",
          created_at := 0, updated_at := 0,
          lines :=
            [{ description := "Teenus 1", qty := 1, unit_price := 300, line_total := 300 },
             { description := "Teenus 2", qty := 4, unit_price := 75, line_total := 300 },
             { description := "Teenus 3", qty := 5/2, unit_price := 100, line_total := 250 }] }).total
        = 1037) := by
  refine ⟨rfl, ?_, rfl, ?_, ?_, ?_⟩
  · simp [Invoice.calculate_totals, Invoice.vat_amount, Invoice.get_effective_vat_rate,
      Invoice.vat_rate_obj, mul_div_assoc]
  · simp [Invoice.calculate_totals]
    norm_num
  · simp [Invoice.calculate_totals, Invoice.vat_amount, Invoice.get_effective_vat_rate,
      Invoice.vat_rate_obj]
    norm_num
  · simp [Invoice.calculate_totals, Invoice.vat_amount, Invoice.get_effective_vat_rate,
      Invoice.vat_rate_obj]
    norm_num

/-- C5: the effective VAT rate is the referenced rate's percentage whenever
the invoice's `vat_rate_id` resolves to a stored rate, and falls back to the
denormalized `vat_rate` column when the reference is null or the referenced
rate is no longer in the store. -/
theorem c5_effective_vat_rate (store : List VatRate) (inv : Invoice)
    (hids : (store.map VatRate.id).Nodup) :
    (∀ i r, inv.vat_rate_id = some i → r ∈ store → r.id = i →
        Invoice.get_effective_vat_rate store inv = r.rate) ∧
    (inv.vat_rate_id = none →
        Invoice.get_effective_vat_rate store inv = inv.vat_rate) ∧
    (∀ i, inv.vat_rate_id = some i → (∀ r ∈ store, r.id ≠ i) →
        Invoice.get_effective_vat_rate store inv = inv.vat_rate) := by
  refine ⟨?_, ?_, ?_⟩
  · intro i r href hmem hid
    have hsome : (store.find? (fun x => x.id == i)).isSome := by
      rw [List.find?_isSome]
      exact ⟨r, hmem, by simp [hid]⟩
    obtain ⟨r', hfind⟩ := Option.isSome_iff_exists.mp hsome
    have hr'id : r'.id = i := by
      have := List.find?_some hfind
      simpa using this
    have hr'mem : r' ∈ store := List.mem_of_find?_eq_some hfind
    have : r' = r :=
      List.inj_on_of_nodup_map hids hr'mem hmem (by rw [hr'id, hid])
    subst this
    simp [Invoice.get_effective_vat_rate, Invoice.vat_rate_obj, href, hfind]
  · intro hnone
    simp [Invoice.get_effective_vat_rate, Invoice.vat_rate_obj, hnone]
  · intro i href hdel
    have hnone : store.find? (fun x => x.id == i) = none := by
      rw [List.find?_eq_none]
      intro r hr
      simpa using hdel r hr
    simp [Invoice.get_effective_vat_rate, Invoice.vat_rate_obj, href, hnone]

/-- C5 witness: with one stored rate of id 1 at 24%, an invoice referencing
id 1 gets 24 despite its denormalized value 20; an invoice with a null
reference gets its denormalized 20; an invoice referencing the deleted
id 2 gets its denormalized 20. -/
theorem c5_effective_vat_rate_witness :
    Invoice.get_effective_vat_rate
        [{ id := 1, name := "Standardmäär (24%)", rate := 24, is_active := true }]
        { number := "2025-0001", client_id := 1, date := 0, due_date := 14, subtotal := 0,
          vat_rate_id := some 1, vat_rate := 20, total := 0, status := "mustand",
          created_at := 0, updated_at := 0, lines := [] } = 24 ∧
    Invoice.get_effective_vat_rate
        [{ id := 1, name := "Standardmäär (24%)", rate := 24, is_active := true }]
        { number := "2025-0002", client_id := 1, date := 0, due_date := 14, subtotal := 0,
          vat_rate_id := none, vat_rate := 20, total := 0, status := "mustand",
          created_at := 0, updated_at := 0, lines := [] } = 20 ∧
    Invoice.get_effective_vat_rate
        [{ id := 1, name := "Standardmäär (24%)", rate := 24, is_active := true }]
        { number := "2025-0003", client_id := 1, date := 0, due_date := 14, subtotal := 0,
          vat_rate_id := some 2, vat_rate := 20, total := 0, status := "mustand",
          created_at := 0, updated_at := 0, lines := [] } = 20 :=
  ⟨(c5_effective_vat_rate
      [{ id := 1, name := "Standardmäär (24%)", rate := 24, is_active := true }]
      { number := "2025-0001", client_id := 1, date := 0, due_date := 14, subtotal := 0,
        vat_rate_id := some 1, vat_rate := 20, total := 0, status := "mustand",
        created_at := 0, updated_at := 0, lines := [] } (by decide)).1 1
      { id := 1, name := "Standardmäär (24%)", rate := 24, is_active := true }
      rfl (by simp) rfl,
   (c5_effective_vat_rate
      [{ id := 1, name := "Standardmäär (24%)", rate := 24, is_active := true }]
      { number := "2025-0002", client_id := 1, date := 0, due_date := 14, subtotal := 0,
        vat_rate_id := none, vat_rate := 20, total := 0, status := "mustand",
        created_at := 0, updated_at := 0, lines := [] } (by decide)).2.1 rfl,
   (c5_effective_vat_rate
      [{ id := 1, name := "Standardmäär (24%)", rate := 24, is_active := true }]
      { number := "2025-0003", client_id := 1, date := 0, due_date := 14, subtotal := 0,
        vat_rate_id := some 2, vat_rate := 20, total := 0, status := "mustand",
        created_at := 0, updated_at := 0, lines := [] } (by decide)).2.2 2 rfl
      (by decide)⟩

/-- One sweep step is idempotent: an invoice already processed once is left
unchanged by a second processing, whatever timestamp the second pass uses. -/
theorem update_overdue_step_idem (today now now2 : Int) (inv : Invoice) :
    Invoice.update_overdue_step today now2 (Invoice.update_overdue_step today now inv) =
      Invoice.update_overdue_step today now inv := by
  unfold Invoice.update_overdue_step
  by_cases h : inv.due_date < today ∧ inv.status = "saadetud"
  · simp [h]
  · simp [h]

/-- C3: one pass of the overdue sweep promotes exactly the invoices whose
status is `saadetud` and whose due date is strictly before the current date
(setting status to `tähtaeg ületatud` and refreshing the timestamp), leaves
every other invoice untouched (in particular it never demotes an `overdue`
or `makstud` invoice), and a second consecutive pass changes nothing. -/
theorem c3_overdue_sweep (today now now2 : Int) (invs : List Invoice) :
    ((Invoice.update_overdue_invoices today now invs).1.length = invs.length) ∧
    (∀ i (h : i < invs.length) (h2 : i < (Invoice.update_overdue_invoices today now invs).1.length),
      (Invoice.update_overdue_invoices today now invs).1.get ⟨i, h2⟩ =
        if (invs.get ⟨i, h⟩).due_date < today ∧ (invs.get ⟨i, h⟩).status = "saadetud"
        then { invs.get ⟨i, h⟩ with status := "tähtaeg ületatud", updated_at := now }
        else invs.get ⟨i, h⟩) ∧
    (∀ i (h : i < invs.length) (h2 : i < (Invoice.update_overdue_invoices today now invs).1.length),
      (invs.get ⟨i, h⟩).status ≠ "saadetud" →
        (Invoice.update_overdue_invoices today now invs).1.get ⟨i, h2⟩ = invs.get ⟨i, h⟩) ∧
    ((Invoice.update_overdue_invoices today now2
        (Invoice.update_overdue_invoices today now invs).1).1 =
      (Invoice.update_overdue_invoices today now invs).1) := by
  refine ⟨by simp [Invoice.update_overdue_invoices], ?_, ?_, ?_⟩
  · intro i h h2
    simp only [Invoice.update_overdue_invoices, List.get_eq_getElem, List.getElem_map]
    rfl
  · intro i h h2 hns
    simp only [List.get_eq_getElem] at hns
    simp only [Invoice.update_overdue_invoices, List.get_eq_getElem, List.getElem_map]
    simp [Invoice.update_overdue_step, hns]
  · simp only [Invoice.update_overdue_invoices, List.map_map]
    apply List.map_congr_left
    intro inv _
    exact update_overdue_step_idem today now now2 inv

/-- C3 witness: on the two-invoice table holding a `saadetud` invoice due
yesterday and a `makstud` invoice due yesterday, the sweep at day 10
promotes exactly the first invoice and a second pass changes nothing. -/
theorem c3_overdue_sweep_witness :
    ((Invoice.update_overdue_invoices 10 11
        [{ number := "2025-0001", client_id := 1, date := 0, due_date := 9, subtotal := 0,
           vat_rate_id := none, vat_rate := 24, total := 0, status := "saadetud",
           created_at := 0, updated_at := 0, lines := [] },
         { number := "2025-0002", client_id := 1, date := 0, due_date := 9, subtotal := 0,
           vat_rate_id := none, vat_rate := 24, total := 0, status := "makstud",
           created_at := 0, updated_at := 0, lines := [] }]).1.get ⟨0, by decide⟩ =
      { number := "2025-0001", client_id := 1, date := 0, due_date := 9, subtotal := 0,
        vat_rate_id := none, vat_rate := 24, total := 0, status := "tähtaeg ületatud",
        created_at := 0, updated_at := 11, lines := [] }) ∧
    ((Invoice.update_overdue_invoices 10 11
        [{ number := "2025-0001", client_id := 1, date := 0, due_date := 9, subtotal := 0,
           vat_rate_id := none, vat_rate := 24, total := 0, status := "saadetud",
           created_at := 0, updated_at := 0, lines := [] },
         { number := "2025-0002", client_id := 1, date := 0, due_date := 9, subtotal := 0,
           vat_rate_id := none, vat_rate := 24, total := 0, status := "makstud",
           created_at := 0, updated_at := 0, lines := [] }]).1.get ⟨1, by decide⟩ =
      { number := "2025-0002", client_id := 1, date := 0, due_date := 9, subtotal := 0,
        vat_rate_id := none, vat_rate := 24, total := 0, status := "makstud",
        created_at := 0, updated_at := 0, lines := [] }) ∧
    ((Invoice.update_overdue_invoices 10 12
        (Invoice.update_overdue_invoices 10 11
          [{ number := "2025-0001", client_id := 1, date := 0, due_date := 9, subtotal := 0,
             vat_rate_id := none, vat_rate := 24, total := 0, status := "saadetud",
             created_at := 0, updated_at := 0, lines := [] },
           { number := "2025-0002", client_id := 1, date := 0, due_date := 9, subtotal := 0,
             vat_rate_id := none, vat_rate := 24, total := 0, status := "makstud",
             created_at := 0, updated_at := 0, lines := [] }]).1).1 =
      (Invoice.update_overdue_invoices 10 11
        [{ number := "2025-0001", client_id := 1, date := 0, due_date := 9, subtotal := 0,
           vat_rate_id := none, vat_rate := 24, total := 0, status := "saadetud",
           created_at := 0, updated_at := 0, lines := [] },
         { number := "2025-0002", client_id := 1, date := 0, due_date := 9, subtotal := 0,
           vat_rate_id := none, vat_rate := 24, total := 0, status := "makstud",
           created_at := 0, updated_at := 0, lines := [] }]).1) := by
  refine ⟨?_, ?_, ?_⟩
  · have := (c3_overdue_sweep 10 11 12
      [{ number := "2025-0001", client_id := 1, date := 0, due_date := 9, subtotal := 0,
         vat_rate_id := none, vat_rate := 24, total := 0, status := "saadetud",
         created_at := 0, updated_at := 0, lines := [] },
       { number := "2025-0002", client_id := 1, date := 0, due_date := 9, subtotal := 0,
         vat_rate_id := none, vat_rate := 24, total := 0, status := "makstud",
         created_at := 0, updated_at := 0, lines := [] }]).2.1 0 (by decide) (by decide)
    simpa using this
  · have := (c3_overdue_sweep 10 11 12
      [{ number := "2025-0001", client_id := 1, date := 0, due_date := 9, subtotal := 0,
         vat_rate_id := none, vat_rate := 24, total := 0, status := "saadetud",
         created_at := 0, updated_at := 0, lines := [] },
       { number := "2025-0002", client_id := 1, date := 0, due_date := 9, subtotal := 0,
         vat_rate_id := none, vat_rate := 24, total := 0, status := "makstud",
         created_at := 0, updated_at := 0, lines := [] }]).2.2.1 1 (by decide) (by decide)
      (by decide)
    simpa using this
  · exact (c3_overdue_sweep 10 11 12
      [{ number := "2025-0001", client_id := 1, date := 0, due_date := 9, subtotal := 0,
         vat_rate_id := none, vat_rate := 24, total := 0, status := "saadetud",
         created_at := 0, updated_at := 0, lines := [] },
       { number := "2025-0002", client_id := 1, date := 0, due_date := 9, subtotal := 0,
         vat_rate_id := none, vat_rate := 24, total := 0, status := "makstud",
         created_at := 0, updated_at := 0, lines := [] }]).2.2.2

/-- A decimal digit is not one of the four whitespace characters. -/
theorem digit_not_whitespace (c : Char) (h : c.isDigit = true) :
    c.isWhitespace = false := by
  cases hw : c.isWhitespace with
  | false => rfl
  | true =>
      exfalso
      simp only [Char.isWhitespace, Bool.or_eq_true, decide_eq_true_eq] at hw
      rcases hw with ((rfl | rfl) | rfl) | rfl <;> exact absurd h (by decide)

/-- A string matching the invoice number pattern starts with a digit. -/
theorem matchesNumberPattern_head_digit (s : String)
    (h : Forms.matchesNumberPattern s = true) :
    ∃ c cs, s.data = c :: cs ∧ c.isDigit = true := by
  unfold Forms.matchesNumberPattern at h
  split at h
  · next c0 c1 c2 c3 c4 c5 c6 c7 c8 heq =>
      simp only [Bool.and_eq_true] at h
      exact ⟨c0, [c1, c2, c3, c4, c5, c6, c7, c8], heq, h.1.1.1.1.1.1.1.1⟩
  · exact absurd h (by simp)

/-- C7: the `InvoiceForm.number` validator chain accepts the entered number
exactly when it matches the `YYYY-NNNN` pattern and every stored invoice
carrying that number is the invoice being edited (so a self-collision during
an edit is accepted, any other duplicate or malformed number is rejected).
Hypotheses: invoice numbers are unique in the table (database constraint)
and primary keys are positive. -/
theorem c7_invoice_number_validation (existing : List Forms.InvoiceRow)
    (invoice_id : Option Nat) (data : String)
    (hnodup : (existing.map Forms.InvoiceRow.number).Nodup)
    (hpos : ∀ row ∈ existing, 0 < row.id) :
    Forms.invoice_number_validates existing invoice_id data = true ↔
      (Forms.matchesNumberPattern data = true ∧
        ∀ row ∈ existing, row.number = data → invoice_id = some row.id) := by
  constructor
  · intro hv
    unfold Forms.invoice_number_validates at hv
    rw [Bool.and_eq_true, Bool.and_eq_true] at hv
    obtain ⟨⟨hreq, hfmt⟩, huniq⟩ := hv
    constructor
    · unfold Forms.validate_invoice_number_format at hfmt
      by_cases he : data = ""
      · subst he
        simp [Forms.data_required] at hreq
      · rwa [if_neg he] at hfmt
    · intro row hrow hnum
      unfold Forms.validate_unique_invoice_number at huniq
      cases hfind : existing.find? (fun r => r.number == data) with
      | none =>
          exfalso
          have := List.find?_eq_none.mp hfind row hrow
          simp [hnum] at this
      | some row' =>
          rw [hfind] at huniq
          have hrow'num : row'.number = data := by
            simpa using List.find?_some hfind
          have hrow'mem := List.mem_of_find?_eq_some hfind
          have hrr : row = row' :=
            List.inj_on_of_nodup_map hnodup hrow hrow'mem (by rw [hnum, hrow'num])
          cases invoice_id with
          | none => simp at huniq
          | some iid =>
              simp only [Bool.and_eq_true, bne_iff_ne, beq_iff_eq] at huniq
              rw [hrr, huniq.2]
  · rintro ⟨hfmt, hall⟩
    unfold Forms.invoice_number_validates
    rw [Bool.and_eq_true, Bool.and_eq_true]
    refine ⟨⟨?_, ?_⟩, ?_⟩
    · obtain ⟨c, cs, hd, hdig⟩ := matchesNumberPattern_head_digit data hfmt
      unfold Forms.data_required
      rw [hd]
      simp [digit_not_whitespace c hdig]
    · unfold Forms.validate_invoice_number_format
      split
      · rfl
      · exact hfmt
    · unfold Forms.validate_unique_invoice_number
      cases hfind : existing.find? (fun r => r.number == data) with
      | none => rfl
      | some row =>
          have hmem := List.mem_of_find?_eq_some hfind
          have hnum : row.number = data := by
            simpa using List.find?_some hfind
          have hid := hall row hmem hnum
          have hp := hpos row hmem
          rw [hid]
          simp only [Bool.and_eq_true, bne_iff_ne, beq_iff_eq]
          exact ⟨by omega, trivial⟩

/-- C7 witness: with one stored invoice `(id 1, "2025-0001")`, creating an
invoice numbered `"2025-0002"` validates, and the acceptance condition of
the claim holds at this input. -/
theorem c7_invoice_number_validation_witness :
    Forms.invoice_number_validates [{ id := 1, number := "2025-0001" }] none "2025-0002" = true ↔
      (Forms.matchesNumberPattern "2025-0002" = true ∧
        ∀ row ∈ ([{ id := 1, number := "2025-0001" }] : List Forms.InvoiceRow),
          row.number = "2025-0002" → none = some row.id) :=
  c7_invoice_number_validation [{ id := 1, number := "2025-0001" }] none "2025-0002"
    (by decide) (by decide)

/-- C8: deleting a stored VAT rate is refused while at least one invoice
references it — both the rates table and the invoices table are left
unchanged — and succeeds (removing exactly that rate, invoices untouched)
when no invoice references it. -/
theorem c8_delete_vat_rate (rates : List VatRate) (invoices : List Invoice) (rid : Nat)
    (hex : (rates.find? (fun r => r.id == rid)).isSome) :
    ((∃ inv ∈ invoices, inv.vat_rate_id = some rid) →
      (Dashboard.delete_vat_rate rates invoices rid).ok = false ∧
      (Dashboard.delete_vat_rate rates invoices rid).rates = rates ∧
      (Dashboard.delete_vat_rate rates invoices rid).invoices = invoices) ∧
    ((∀ inv ∈ invoices, inv.vat_rate_id ≠ some rid) →
      (Dashboard.delete_vat_rate rates invoices rid).ok = true ∧
      (Dashboard.delete_vat_rate rates invoices rid).rates =
        rates.eraseP (fun r => r.id == rid) ∧
      (Dashboard.delete_vat_rate rates invoices rid).invoices = invoices) := by
  obtain ⟨vr, hfind⟩ := Option.isSome_iff_exists.mp hex
  constructor
  · rintro ⟨inv, hmem, href⟩
    have hcount : 0 < invoices.countP (fun inv => inv.vat_rate_id == some rid) := by
      rw [List.countP_pos_iff]
      exact ⟨inv, hmem, by simp [href]⟩
    simp [Dashboard.delete_vat_rate, hfind, hcount]
  · intro hnone
    have hcount : invoices.countP (fun inv => inv.vat_rate_id == some rid) = 0 := by
      rw [List.countP_eq_zero]
      intro inv hmem
      simp [hnone inv hmem]
    simp [Dashboard.delete_vat_rate, hfind, hcount]

/-- C8 witness: with the single stored rate of id 1 and an empty invoice
table, deletion of rate 1 succeeds and removes it; the invoice table is
untouched. -/
theorem c8_delete_vat_rate_witness :
    (Dashboard.delete_vat_rate
        [{ id := 1, name := "Maksuvaba (0%)", rate := 0, is_active := true }] [] 1).ok = true ∧
    (Dashboard.delete_vat_rate
        [{ id := 1, name := "Maksuvaba (0%)", rate := 0, is_active := true }] [] 1).rates =
      ([{ id := 1, name := "Maksuvaba (0%)", rate := 0, is_active := true }] :
        List VatRate).eraseP (fun r => r.id == 1) ∧
    (Dashboard.delete_vat_rate
        [{ id := 1, name := "Maksuvaba (0%)", rate := 0, is_active := true }] [] 1).invoices =
      ([] : List Invoice) :=
  (c8_delete_vat_rate
      [{ id := 1, name := "Maksuvaba (0%)", rate := 0, is_active := true }] [] 1
      (by decide)).2 (by simp)

/-- C10: for an invoice whose current status is one of the four valid
statuses, the service-layer pipeline `transition_invoice_status` succeeds
exactly when the model-layer check `can_change_status_to` permits the
change: the two implementations of the transition rules coincide. -/
theorem c10_service_matches_model (today now : Int) (inv : Invoice) (new_status : String)
    (hvalid : inv.status ∈ Invoice.validStatuses) :
    (InvoiceStatusTransition.transition_invoice_status today now inv new_status).1 = true ↔
      (Invoice.can_change_status_to today inv new_status).1 = true := by
  constructor
  · intro hs
    unfold InvoiceStatusTransition.transition_invoice_status at hs
    by_cases h1 : (InvoiceStatusTransition.can_transition_to inv.status new_status).1 = false
    · simp [h1] at hs
    · by_cases h2 : (InvoiceStatusTransition.can_transition_overdue_to_sent today inv
          new_status).1 = false
      · simp [h1, h2] at hs
      · cases hset : Invoice.set_status today now inv new_status with
        | ok inv' =>
            unfold Invoice.set_status at hset
            by_cases hc : (Invoice.can_change_status_to today inv new_status).1 = true
            · exact hc
            · have hcf : (Invoice.can_change_status_to today inv new_status).1 = false := by
                revert hc
                cases (Invoice.can_change_status_to today inv new_status).1 <;> simp
              simp [hcf] at hset
        | error e =>
            simp [h1, h2, hset] at hs
  · intro hm
    by_cases g1 : inv.status = "makstud" ∧
        new_status ∈ (["mustand", "saadetud", "tähtaeg ületatud"] : List String)
    · simp [Invoice.can_change_status_to, g1] at hm
    · by_cases g2 : new_status ∈ Invoice.validStatuses
      · by_cases g3 : inv.status = "tähtaeg ületatud" ∧ new_status = "saadetud" ∧
            Invoice.is_overdue today inv = true
        · simp [Invoice.can_change_status_to, Invoice.validStatuses, g1, g2, g3] at hm
        · have h1 : (InvoiceStatusTransition.can_transition_to inv.status new_status).1 = true := by
            have g2' : new_status ∈ InvoiceStatusTransition.VALID_STATUSES := by
              simpa [InvoiceStatusTransition.VALID_STATUSES, InvoiceStatusTransition.DRAFT,
                InvoiceStatusTransition.SENT, InvoiceStatusTransition.PAID,
                InvoiceStatusTransition.OVERDUE, Invoice.validStatuses] using g2
            have g1' : ¬(inv.status = InvoiceStatusTransition.PAID ∧
                new_status ∈ [InvoiceStatusTransition.DRAFT, InvoiceStatusTransition.SENT,
                  InvoiceStatusTransition.OVERDUE]) := by
              simpa [InvoiceStatusTransition.DRAFT, InvoiceStatusTransition.SENT,
                InvoiceStatusTransition.PAID, InvoiceStatusTransition.OVERDUE] using g1
            unfold InvoiceStatusTransition.can_transition_to
            rw [if_neg (by simpa using g2')]
            by_cases hsame : inv.status = new_status
            · rw [if_pos hsame]
            · rw [if_neg hsame, if_neg g1']
          have h2 : (InvoiceStatusTransition.can_transition_overdue_to_sent today inv
              new_status).1 = true := by
            unfold InvoiceStatusTransition.can_transition_overdue_to_sent
            rw [if_neg (by simpa [InvoiceStatusTransition.OVERDUE,
              InvoiceStatusTransition.SENT] using g3)]
          have h3 : Invoice.set_status today now inv new_status =
              .ok { inv with status := new_status, updated_at := now } := by
            simp [Invoice.set_status, hm]
          simp [InvoiceStatusTransition.transition_invoice_status, h1, h2, h3]
      · rw [Invoice.can_change_status_to] at hm
        split_ifs at hm

/-- C10 witness: for a concrete draft invoice and the request `saadetud`,
the service pipeline succeeds exactly when the model-layer check permits
the change. -/
theorem c10_service_matches_model_witness :
    (InvoiceStatusTransition.transition_invoice_status 3 5
        { number := "2025-0001", client_id := 1, date := 0, due_date := 14, subtotal := 0,
          vat_rate_id := none, vat_rate := 24, total := 0, status := "mustand",
          created_at := 0, updated_at := 0, lines := [] } "saadetud").1 = true ↔
      (Invoice.can_change_status_to 3
        { number := "2025-0001", client_id := 1, date := 0, due_date := 14, subtotal := 0,
          vat_rate_id := none, vat_rate := 24, total := 0, status := "mustand",
          created_at := 0, updated_at := 0, lines := [] } "saadetud").1 = true :=
  c10_service_matches_model 3 5
    { number := "2025-0001", client_id := 1, date := 0, due_date := 14, subtotal := 0,
      vat_rate_id := none, vat_rate := 24, total := 0, status := "mustand",
      created_at := 0, updated_at := 0, lines := [] } "saadetud" (by decide)

end Billipocket
